import Mathlib

/-!
Verification of the IGNOU grade-card retrieval and computation pipeline
(`ignou_percentage_calculator.py`).  The Python/pandas operations used by the
source are shallowly embedded as executable Lean functions; marks and derived
scores are modelled as rationals.
-/

namespace IgnouGradeCard

/-! ### String primitives used by the source -/

/-- Python `s.startswith(pat)`: `pat` is a prefix of `s`. -/
def strStartsWith (s pat : String) : Bool :=
  pat.toList.isPrefixOf s.toList

/-- Substring occurrence over character lists: `pat` occurs contiguously in the
second argument. -/
def containsSub (pat : List Char) : List Char → Bool
  | [] => pat.isEmpty
  | c :: rest => pat.isPrefixOf (c :: rest) || containsSub pat rest

/-- pandas `Series.str.contains(pat, case=False)` for a plain pattern, and the
Python idiom `pat in s.lower()`: case-insensitive substring search. -/
def strContainsCI (s pat : String) : Bool :=
  containsSub (pat.toList.map Char.toLower) (s.toList.map Char.toLower)

/-- Python `s.strip()`: drop leading and trailing whitespace. -/
def strTrim (s : String) : String :=
  ⟨((s.toList.dropWhile Char.isWhitespace).reverse.dropWhile Char.isWhitespace).reverse⟩

/-- Python `s.isdigit()`, modelled over ASCII digits: non-empty and all digits. -/
def strIsDigit (s : String) : Bool :=
  !s.toList.isEmpty && s.toList.all Char.isDigit

/-! ### Input Validator (source line 377) -/

/-- The enrollment check from the source:
`if not enrollment.isdigit() or len(enrollment) not in [9, 10]` rejects;
validation succeeds otherwise.  Pure Boolean function, no side effects. -/
def validateEnrollment (enrollment : String) : Bool :=
  strIsDigit enrollment && (enrollment.length == 9 || enrollment.length == 10)

/-! ### Response Classifier (source lines 491-517) -/

/-- The observable features of a returned page that the classifier inspects:
a `div` with id `captcha`, the raw page source, the `lblMsg` span text when the
span is present, and the `gvDetail` result table. -/
structure RawResultPage where
  hasCaptchaDiv : Bool
  payload : String
  msgText : Option String
  hasResultTable : Bool
deriving DecidableEq

/-- Outcome of classification; `TableNotFound` is the distinct diagnostic the
source emits when neither message nor table is present. -/
inductive ClassifiedResponse where
  | CaptchaChallenge
  | ServerError (msg : String)
  | ResultTable
  | TableNotFound
deriving DecidableEq

/-- The classification sequence of the source: CAPTCHA first
(`soup.find("div", id captcha)` or `"captcha" in page_source.lower()`), then a
non-empty trimmed `lblMsg` text, then presence of the results table. -/
def classify (p : RawResultPage) : ClassifiedResponse :=
  if p.hasCaptchaDiv || strContainsCI p.payload "captcha" then
    .CaptchaChallenge
  else
    match p.msgText with
    | some m =>
      if strTrim m = "" then
        if p.hasResultTable then .ResultTable else .TableNotFound
      else .ServerError (strTrim m)
    | none => if p.hasResultTable then .ResultTable else .TableNotFound

/-! ### Table Extractor (source lines 535-563) -/

/-- Raw table markup after cell-text extraction: the header cells and the data
rows (each a list of cell texts). -/
structure RawTable where
  header : List String
  body : List (List String)

inductive ExtractionError where
  | NoRows
  | MissingColumn (name : String)
deriving DecidableEq

/-- Row filtering of the source: keep a row iff `len(cols) == len(headers)`. -/
def validRows (t : RawTable) : List (List String) :=
  t.body.filter (fun row => row.length == t.header.length)

/-- The extraction sequence of the source: filter rows by width, fail with
`NoRows` when none survive, then fail with `MissingColumn "COURSE"` when the
header lacks a COURSE column. -/
def extract (t : RawTable) : Except ExtractionError (List (List String)) :=
  let rows := validRows t
  if rows.isEmpty then .error .NoRows
  else if t.header.contains "COURSE" then .ok rows
  else .error (.MissingColumn "COURSE")

/-- Value of an all-digit character list read in base 10. -/
def digitsVal (cs : List Char) : ℕ :=
  cs.foldl (fun n c => n * 10 + (c.toNat - 48)) 0

/-- Modelled from the numeric parsing the source delegates to
`pd.to_numeric(..., errors="coerce")`, restricted to plain signed decimal
tokens: an optional sign, digits, and an optional fractional part.  Returns
`none` exactly when the token is not numeric (pandas yields NaN there). -/
def parseNumToken (s : String) : Option ℚ :=
  let go : List Char → Option ℚ := fun cs =>
    match cs.span Char.isDigit with
    | (ip, []) =>
      if ip.isEmpty then none else some (digitsVal ip)
    | (ip, '.' :: fp) =>
      if fp.all Char.isDigit && !(ip.isEmpty && fp.isEmpty) then
        some ((digitsVal ip : ℚ) + (digitsVal fp : ℚ) / (10 : ℚ) ^ fp.length)
      else none
    | _ => none
  match s.toList with
  | '-' :: rest => (go rest).map (fun q => -q)
  | '+' :: rest => go rest
  | cs => go cs

/-- Numeric-cell coercion of the source:
`pd.to_numeric(df[col].replace(["-", "N/A", ""], 0), errors="coerce").fillna(0)`.
The three literal tokens map to 0, a numeric token to its value, and any other
token to 0 via the NaN-then-fill path. -/
def parseNumericCell (s : String) : ℚ :=
  if s = "-" || s = "N/A" || s = "" then 0
  else (parseNumToken s).getD 0

/-- Coercing one named numeric column: when the column exists, each row's cell
is coerced; when it is absent, the source warns and fills the column with 0.
The Boolean is the warning flag. -/
def coerceColumn (header : List String) (rows : List (List String)) (col : String) :
    List ℚ × Bool :=
  match header.findIdx? (fun h => h == col) with
  | some i => (rows.map (fun row => parseNumericCell (row[i]?.getD "")), false)
  | none => (rows.map (fun _ => (0 : ℚ)), true)

/-! ### Score Calculator (source lines 565-600) -/

/-- One row of the extracted table, with the three mark columns already
coerced to numbers. -/
structure CourseRecord where
  course : String
  status : String
  assignmentMark : ℚ
  theoryMark : ℚ
  practicalMark : ℚ
deriving DecidableEq

/-- The lab-course inclusion rule of the source (line 567):
`COURSE.str.startswith("MCSL") | ~COURSE.str.contains("lab", case=False)`. -/
def labKeep (course : String) : Bool :=
  strStartsWith course "MCSL" || !strContainsCI course "lab"

/-- First filter of the source (line 566): `df["STATUS"] == "COMPLETED"`. -/
def completedRecords (rs : List CourseRecord) : List CourseRecord :=
  rs.filter (fun r => r.status == "COMPLETED")

/-- The records that survive both filters and enter scoring (`df_calc`). -/
def survivors (rs : List CourseRecord) : List CourseRecord :=
  (completedRecords rs).filter (fun r => labKeep r.course)

/-- A surviving record together with its derived score columns. -/
structure ScoredCourseRecord where
  base : CourseRecord
  assignmentWeighted : ℚ
  theoryOrPracticalWeighted : ℚ
  total : ℚ
deriving DecidableEq

/-- The derived columns of the source (lines 570-574): `30% Assignments`,
`70% Theory` (practical for MCSL courses, theory otherwise), `Total (A+B)`. -/
def scoreRecord (r : CourseRecord) : ScoredCourseRecord :=
  let aw := r.assignmentMark * (3 / 10)
  let tp :=
    if strStartsWith r.course "MCSL" then r.practicalMark * (7 / 10)
    else r.theoryMark * (7 / 10)
  ⟨r, aw, tp, aw + tp⟩

/-- `df_calc` with its derived score columns. -/
def scoredRecords (rs : List CourseRecord) : List ScoredCourseRecord :=
  (survivors rs).map scoreRecord

/-- `num_subjects = len(df_calc)` (line 588). -/
def subjectCount (rs : List CourseRecord) : ℕ :=
  (survivors rs).length

/-- `total_obtained_marks = df_calc["Total (A+B)"].sum()` (line 590). -/
def totalObtainedMarks (rs : List CourseRecord) : ℚ :=
  ((scoredRecords rs).map (fun s => s.total)).sum

/-- Python `round(x, 2)`: round half to even at two decimal places. -/
def pyRound2 (q : ℚ) : ℚ :=
  let x := q * 100
  let f : ℤ := ⌊x⌋
  let r : ℚ := x - (f : ℚ)
  let n : ℤ :=
    if r < 1 / 2 then f
    else if 1 / 2 < r then f + 1
    else if f % 2 = 0 then f else f + 1
  (n : ℚ) / 100

/-- The percentage of the source (line 591):
`round((total_obtained / total_possible) * 100, 2) if total_possible > 0 else 0`
with `total_possible = num_subjects * 100`. -/
def finalPercentage (rs : List CourseRecord) : ℚ :=
  let possible : ℚ := (subjectCount rs : ℚ) * 100
  if 0 < possible then pyRound2 (totalObtainedMarks rs / possible * 100) else 0

/-- The incomplete-subjects view of the source (lines 598-600): records with
`STATUS != "COMPLETED"`, minus any row whose COURSE is the literal `Total`. -/
def incompleteView (rs : List CourseRecord) : List CourseRecord :=
  (rs.filter (fun r => r.status != "COMPLETED")).filter (fun r => r.course != "Total")

/-! ### Retry loop of the orchestrating caller (source lines 371-374, 846-868) -/

/-- What one end-to-end attempt can produce, as the exception handlers see it:
success, a `WebDriverException` (timeout, element unavailable, or transport
initialization failure - the transient class), or any other failure (invalid
input, CAPTCHA, server error - the fatal class that breaks out of the loop). -/
inductive AttemptOutcome where
  | success
  | webDriverFailure
  | otherFailure
deriving DecidableEq

/-- Overall outcome of the fetch, as surfaced to the user. -/
inductive FetchResult where
  | fetched
  | failedAfterRetries
  | abortedNonTransient
deriving DecidableEq

/-- `max_retries = 2` (line 371). -/
def maxRetries : ℕ := 2

/-- `time.sleep(3)` between attempts (line 859). -/
def retryDelaySeconds : ℕ := 3

/-- The `while retry_count <= max_retries` loop: attempt `i` with the given
outcome oracle; success breaks with the result, a non-WebDriver failure breaks
with an error, and a WebDriver failure consumes one unit of fuel and retries.
Returns the overall result and the number of attempts made. -/
def retryLoop (f : ℕ → AttemptOutcome) : ℕ → ℕ → FetchResult × ℕ
  | 0, _ => (.failedAfterRetries, 0)
  | fuel + 1, i =>
    match f i with
    | .success => (.fetched, 1)
    | .otherFailure => (.abortedNonTransient, 1)
    | .webDriverFailure =>
      let p := retryLoop f fuel (i + 1)
      (p.1, p.2 + 1)

/-- Run the fetch with the source's retry budget of `max_retries + 1 = 3`
total attempts. -/
def runFetch (f : ℕ → AttemptOutcome) : FetchResult :=
  (retryLoop f (maxRetries + 1) 0).1

/-- Number of attempts actually performed by the fetch. -/
def attemptsMade (f : ℕ → AttemptOutcome) : ℕ :=
  (retryLoop f (maxRetries + 1) 0).2

/-! ### Claim theorems -/

/-- A list is `isEmpty` exactly when it is nil. -/
theorem isEmpty_eq_true_iff {α : Type} (l : List α) : l.isEmpty = true ↔ l = [] := by
  cases l <;> simp

/-- C1: among the records with status `COMPLETED`, a record is kept for scoring
iff its course code starts with `MCSL` or does not contain the substring `lab`
case-insensitively; in particular every MCSL-prefixed completed course is
included, for every input record set. -/
theorem c1_lab_inclusion_rule (rs : List CourseRecord) (r : CourseRecord)
    (hmem : r ∈ rs) (hst : r.status = "COMPLETED") :
    (r ∈ survivors rs ↔
      (strStartsWith r.course "MCSL" = true ∨ strContainsCI r.course "lab" = false)) ∧
    (strStartsWith r.course "MCSL" = true → r ∈ survivors rs) := by
  have hmain : r ∈ survivors rs ↔ labKeep r.course = true := by
    simp [survivors, completedRecords, List.mem_filter, hmem, hst]
  have hlk : labKeep r.course = true ↔
      (strStartsWith r.course "MCSL" = true ∨ strContainsCI r.course "lab" = false) := by
    simp [labKeep]
  refine ⟨hmain.trans hlk, fun h => hmain.mpr (hlk.mpr (Or.inl h))⟩

/-- Witness for C1 at a concrete MCSL record. -/
theorem c1_lab_inclusion_rule_witness :
    (⟨"MCSL016", "COMPLETED", 50, 0, 60⟩ : CourseRecord) ∈
      survivors [⟨"MCSL016", "COMPLETED", 50, 0, 60⟩] :=
  (c1_lab_inclusion_rule _ _ (List.mem_singleton.mpr rfl) rfl).2 (by decide)

/-- C2: every scored record carries `assignmentWeighted = assignmentMark * 0.3`,
`theoryOrPracticalWeighted = practicalMark * 0.7` for MCSL-prefixed courses and
`theoryMark * 0.7` otherwise, and `total` is their sum; a COMPLETED record with
course `MCSL001LAB` and practical mark 80 gets
`total = 0.3 * assignment + 0.7 * 80` whatever its theory mark. -/
theorem c2_weighted_fields :
    (∀ (rs : List CourseRecord) (s : ScoredCourseRecord), s ∈ scoredRecords rs →
      s.assignmentWeighted = s.base.assignmentMark * (3 / 10) ∧
      s.theoryOrPracticalWeighted =
        (if strStartsWith s.base.course "MCSL" = true then s.base.practicalMark * (7 / 10)
          else s.base.theoryMark * (7 / 10)) ∧
      s.total = s.assignmentWeighted + s.theoryOrPracticalWeighted) ∧
    (∀ a t : ℚ, scoredRecords [⟨"MCSL001LAB", "COMPLETED", a, t, 80⟩] =
      [⟨⟨"MCSL001LAB", "COMPLETED", a, t, 80⟩, a * (3 / 10), 80 * (7 / 10),
        a * (3 / 10) + 80 * (7 / 10)⟩]) := by
  constructor
  · intro rs s hmem
    rcases List.mem_map.mp hmem with ⟨r, _, rfl⟩
    by_cases h : strStartsWith r.course "MCSL" = true <;> simp [scoreRecord, h]
  · intro a t
    have hs : survivors [⟨"MCSL001LAB", "COMPLETED", a, t, 80⟩] =
        [⟨"MCSL001LAB", "COMPLETED", a, t, 80⟩] := by
      simp [survivors, completedRecords, List.filter,
        (by decide : labKeep "MCSL001LAB" = true)]
    simp [scoredRecords, hs, scoreRecord,
      (by decide : strStartsWith "MCSL001LAB" "MCSL" = true)]

/-- Witness for C2 at a concrete scored record. -/
theorem c2_weighted_fields_witness :
    (scoreRecord ⟨"MCSL016", "COMPLETED", 50, 20, 60⟩).total =
      (scoreRecord ⟨"MCSL016", "COMPLETED", 50, 20, 60⟩).assignmentWeighted +
        (scoreRecord ⟨"MCSL016", "COMPLETED", 50, 20, 60⟩).theoryOrPracticalWeighted :=
  (c2_weighted_fields.1 [⟨"MCSL016", "COMPLETED", 50, 20, 60⟩] _
    (by simp [scoredRecords,
      (by decide : survivors [(⟨"MCSL016", "COMPLETED", 50, 20, 60⟩ : CourseRecord)] =
        [⟨"MCSL016", "COMPLETED", 50, 20, 60⟩])])).2.2

/-- C3: with at least one surviving record the percentage is
`round(totalObtained / (subjectCount * 100) * 100, 2)`; with no surviving
record it is 0 with no division fault; two surviving records with totals 72.5
and 81.0 yield 76.75. -/
theorem c3_percentage_formula (rs : List CourseRecord) :
    (subjectCount rs ≠ 0 →
      finalPercentage rs =
        pyRound2 (totalObtainedMarks rs / ((subjectCount rs : ℚ) * 100) * 100)) ∧
    (subjectCount rs = 0 → finalPercentage rs = 0) ∧
    finalPercentage
        [⟨"MCS011", "COMPLETED", 13, 98, 0⟩, ⟨"MCS012", "COMPLETED", 39, 99, 0⟩] =
      7675 / 100 := by
  refine ⟨?_, ?_, ?_⟩
  · intro h
    have hpos : (0 : ℚ) < (subjectCount rs : ℚ) * 100 := by
      have : 0 < subjectCount rs := Nat.pos_of_ne_zero h
      positivity
    simp [finalPercentage, hpos]
  · intro h
    simp [finalPercentage, h]
  · have hs : survivors
        [⟨"MCS011", "COMPLETED", 13, 98, 0⟩, ⟨"MCS012", "COMPLETED", 39, 99, 0⟩] =
        [⟨"MCS011", "COMPLETED", 13, 98, 0⟩, ⟨"MCS012", "COMPLETED", 39, 99, 0⟩] := by
      decide
    have h1 : strStartsWith "MCS011" "MCSL" = false := by decide
    have h2 : strStartsWith "MCS012" "MCSL" = false := by decide
    simp [finalPercentage, totalObtainedMarks, scoredRecords, subjectCount, hs,
      scoreRecord, h1, h2]
    norm_num [pyRound2]

/-- Witness for C3: the zero-subject case and a one-subject case. -/
theorem c3_percentage_formula_witness :
    finalPercentage [] = 0 ∧
    finalPercentage [⟨"MCS013", "COMPLETED", 20, 50, 0⟩] =
      pyRound2 (totalObtainedMarks [⟨"MCS013", "COMPLETED", 20, 50, 0⟩] /
        ((subjectCount [⟨"MCS013", "COMPLETED", 20, 50, 0⟩] : ℚ) * 100) * 100) :=
  ⟨(c3_percentage_formula []).2.1 rfl, (c3_percentage_formula _).1 (by decide)⟩

/-- C4: any page with a CAPTCHA indicator (marker region, or the substring
`captcha` case-insensitively in the raw payload) classifies as
`CaptchaChallenge` even when a non-empty message region is present - never as
`ServerError`. -/
theorem c4_captcha_before_server_error (p : RawResultPage) (m : String)
    (hc : p.hasCaptchaDiv = true ∨ strContainsCI p.payload "captcha" = true)
    (_hm : p.msgText = some m) (_hne : strTrim m ≠ "") :
    classify p = .CaptchaChallenge ∧ ∀ msg, classify p ≠ .ServerError msg := by
  have hcap : (p.hasCaptchaDiv || strContainsCI p.payload "captcha") = true := by
    rcases hc with h | h <;> simp [h]
  refine ⟨by simp [classify, hcap], fun msg => by simp [classify, hcap]⟩

/-- Witness for C4 at a concrete page carrying both signals. -/
theorem c4_captcha_before_server_error_witness :
    classify ⟨true, "<html>", some "Invalid enrollment", false⟩ = .CaptchaChallenge :=
  (c4_captcha_before_server_error _ "Invalid enrollment" (Or.inl rfl) rfl
    (by decide)).1

/-- C5 counterexample: the course code `BCSL012` does not contain the substring
`lab` case-insensitively, so a COMPLETED record with that course survives the
lab-rule filter and is scored - it is not excluded as the claim states. -/
theorem c5_counterexample :
    survivors [⟨"BCSL012", "COMPLETED", 10, 20, 30⟩] =
      [⟨"BCSL012", "COMPLETED", 10, 20, 30⟩] ∧
    strContainsCI "BCSL012" "lab" = false := by decide

/-- C5 amended: a COMPLETED record whose course code actually contains `lab`
case-insensitively and does not start with `MCSL` is excluded entirely from
scoring; `BCSL012` itself does not match `lab` and is kept. -/
theorem c5_nonmcsl_lab_excluded (rs : List CourseRecord) (r : CourseRecord)
    (hlab : strContainsCI r.course "lab" = true)
    (hpre : strStartsWith r.course "MCSL" = false) :
    r ∉ survivors rs := by
  simp [survivors, completedRecords, List.mem_filter, labKeep, hlab, hpre]

/-- Witness for the amended C5 at a concrete non-MCSL lab course. -/
theorem c5_nonmcsl_lab_excluded_witness :
    (⟨"BCS012LAB", "COMPLETED", 1, 2, 3⟩ : CourseRecord) ∉
      survivors [⟨"BCS012LAB", "COMPLETED", 1, 2, 3⟩] :=
  c5_nonmcsl_lab_excluded _ _ (by decide) (by decide)

/-- C6: numeric-cell coercion is total; the tokens `-`, `N/A` and the empty
string map to 0, any other non-numeric token coerces to 0, the token `87` maps
to 87, and a missing numeric column yields a column of zeros plus the warning
flag. -/
theorem c6_numeric_coercion :
    parseNumericCell "-" = 0 ∧ parseNumericCell "N/A" = 0 ∧
    parseNumericCell "" = 0 ∧ parseNumericCell "87" = 87 ∧
    (∀ s, parseNumToken s = none → parseNumericCell s = 0) ∧
    (∀ (header : List String) (rows : List (List String)) (col : String),
      header.findIdx? (fun h => h == col) = none →
      coerceColumn header rows col = (rows.map (fun _ => (0 : ℚ)), true)) := by
  refine ⟨by decide, by decide, by decide, by decide, ?_, ?_⟩
  · intro s h
    unfold parseNumericCell
    split
    · rfl
    · rw [h]; rfl
  · intro header rows col h
    simp [coerceColumn, h]

/-- Witness for C6 at a non-numeric token and a missing column. -/
theorem c6_numeric_coercion_witness :
    parseNumericCell "abc" = 0 ∧
    coerceColumn ["COURSE"] [["MCS011"]] "Asgn1" = ([0], true) :=
  ⟨c6_numeric_coercion.2.2.2.2.1 "abc" (by decide),
   c6_numeric_coercion.2.2.2.2.2 ["COURSE"] [["MCS011"]] "Asgn1" (by decide)⟩

/-- C7: a data row is kept exactly when its cell count equals the header cell
count, and extraction fails with `NoRows` iff zero valid rows remain after
that filtering. -/
theorem c7_row_filter_norows (t : RawTable) :
    (∀ row, row ∈ validRows t ↔ row ∈ t.body ∧ row.length = t.header.length) ∧
    (extract t = .error .NoRows ↔ validRows t = []) := by
  constructor
  · intro row
    simp [validRows, List.mem_filter]
  · simp only [extract]
    by_cases h : (validRows t).isEmpty = true
    · rw [if_pos h]
      simp [(isEmpty_eq_true_iff _).mp h]
    · have h2 : validRows t ≠ [] := fun he => h ((isEmpty_eq_true_iff _).mpr he)
      rw [if_neg h]
      constructor
      · intro he
        split at he <;> simp at he
      · intro he
        exact absurd he h2

/-- Witness for C7: a header of width 5 with one row of width 4 drops the row
and fails with `NoRows`. -/
theorem c7_row_filter_norows_witness :
    extract ⟨["H1", "H2", "H3", "H4", "H5"], [["x", "y", "z", "w"]]⟩ =
      .error .NoRows :=
  (c7_row_filter_norows _).2.mpr (by decide)

/-- C8: the caller retries WebDriver-class failures at most `maxRetries = 2`
times (3 total attempts) with a fixed 3-second delay inside the 3-5 range;
transient failures on attempts 1 and 2 followed by success on attempt 3 give
overall success, three transient failures surface the failure, and a
non-transient failure aborts after a single attempt with no retry. -/
theorem c8_retry_policy :
    maxRetries = 2 ∧ (3 ≤ retryDelaySeconds ∧ retryDelaySeconds ≤ 5) ∧
    (∀ f : ℕ → AttemptOutcome,
      f 0 = .webDriverFailure → f 1 = .webDriverFailure → f 2 = .success →
      runFetch f = .fetched ∧ attemptsMade f = 3) ∧
    (∀ f : ℕ → AttemptOutcome,
      f 0 = .webDriverFailure → f 1 = .webDriverFailure → f 2 = .webDriverFailure →
      runFetch f = .failedAfterRetries ∧ attemptsMade f = 3) ∧
    (∀ f : ℕ → AttemptOutcome, f 0 = .otherFailure →
      runFetch f = .abortedNonTransient ∧ attemptsMade f = 1) := by
  refine ⟨rfl, by decide, ?_, ?_, ?_⟩
  · intro f h0 h1 h2
    constructor <;> simp [runFetch, attemptsMade, maxRetries, retryLoop, h0, h1, h2]
  · intro f h0 h1 h2
    constructor <;> simp [runFetch, attemptsMade, maxRetries, retryLoop, h0, h1, h2]
  · intro f h0
    constructor <;> simp [runFetch, attemptsMade, maxRetries, retryLoop, h0]

/-- Witness for C8: two timeouts then a success yields overall success. -/
theorem c8_retry_policy_witness :
    runFetch (fun i => if i < 2 then .webDriverFailure else .success) = .fetched :=
  (c8_retry_policy.2.2.1 _ (by decide) (by decide) (by decide)).1

/-- C9: validation succeeds exactly on all-digit strings of length 9 or 10;
any string with a non-digit character or another length is rejected.  The
check is a pure Boolean predicate. -/
theorem c9_validate_iff (s : String) :
    validateEnrollment s = true ↔
      ((∀ c ∈ s.toList, c.isDigit = true) ∧ (s.length = 9 ∨ s.length = 10)) := by
  constructor
  · intro h
    simp only [validateEnrollment, strIsDigit, Bool.and_eq_true, Bool.or_eq_true,
      beq_iff_eq, List.all_eq_true] at h
    exact ⟨fun c hc => h.1.2 c hc, h.2⟩
  · rintro ⟨hall, hlen⟩
    have hne : s.toList ≠ [] := by
      intro he
      have hl : s.length = 0 := by
        rw [show s.length = s.toList.length from rfl, he]
        rfl
      rcases hlen with h9 | h9 <;> omega
    unfold validateEnrollment strIsDigit
    rw [Bool.and_eq_true, Bool.and_eq_true]
    refine ⟨⟨?_, ?_⟩, ?_⟩
    · rw [Bool.not_eq_true']
      cases hx : s.toList with
      | nil => exact absurd hx hne
      | cons c cs => rfl
    · rw [List.all_eq_true]
      exact hall
    · rw [Bool.or_eq_true, beq_iff_eq, beq_iff_eq]
      exact hlen

/-- Witness for C9 at a valid 9-digit enrollment. -/
theorem c9_validate_iff_witness : validateEnrollment "123456789" = true :=
  (c9_validate_iff "123456789").mpr ⟨by decide, by decide⟩

/-- C10: a COMPLETED record that the lab rule excludes appears in neither the
scored view nor the incomplete view, and contributes nothing to the subject
count, the obtained total, or the percentage - the two views do not partition
the extracted records. -/
theorem c10_excluded_record_in_neither_view (r : CourseRecord)
    (rest : List CourseRecord) (hst : r.status = "COMPLETED")
    (hpre : strStartsWith r.course "MCSL" = false)
    (hlab : strContainsCI r.course "lab" = true) :
    survivors (r :: rest) = survivors rest ∧
    incompleteView (r :: rest) = incompleteView rest ∧
    subjectCount (r :: rest) = subjectCount rest ∧
    totalObtainedMarks (r :: rest) = totalObtainedMarks rest ∧
    finalPercentage (r :: rest) = finalPercentage rest ∧
    r ∉ survivors (r :: rest) ∧ r ∉ incompleteView (r :: rest) := by
  have hkeep : labKeep r.course = false := by simp [labKeep, hpre, hlab]
  have h1 : survivors (r :: rest) = survivors rest := by
    simp [survivors, completedRecords, List.filter_cons, hst, hkeep]
  have h2 : incompleteView (r :: rest) = incompleteView rest := by
    simp [incompleteView, List.filter_cons, hst]
  refine ⟨h1, h2, ?_, ?_, ?_, ?_, ?_⟩
  · simp [subjectCount, h1]
  · simp [totalObtainedMarks, scoredRecords, h1]
  · simp [finalPercentage, totalObtainedMarks, scoredRecords, subjectCount, h1]
  · simp [survivors, List.mem_filter, hkeep]
  · simp [incompleteView, List.mem_filter, hst]

/-- Witness for C10 at a concrete excluded lab record. -/
theorem c10_excluded_record_in_neither_view_witness :
    (⟨"BCSLAB01", "COMPLETED", 5, 6, 7⟩ : CourseRecord) ∉
        survivors [⟨"BCSLAB01", "COMPLETED", 5, 6, 7⟩,
          ⟨"MCS011", "COMPLETED", 10, 20, 0⟩] ∧
    (⟨"BCSLAB01", "COMPLETED", 5, 6, 7⟩ : CourseRecord) ∉
        incompleteView [⟨"BCSLAB01", "COMPLETED", 5, 6, 7⟩,
          ⟨"MCS011", "COMPLETED", 10, 20, 0⟩] :=
  ⟨(c10_excluded_record_in_neither_view _ _ rfl (by decide) (by decide)).2.2.2.2.2.1,
   (c10_excluded_record_in_neither_view _ _ rfl (by decide) (by decide)).2.2.2.2.2.2⟩

end IgnouGradeCard
